import Mathlib

/-!
Shallow embedding of the moon-lander simulation (`src/main.c`).

C `double` arithmetic is modelled exactly over `ℚ`; a C `(int)` cast of a
value is modelled as truncation toward zero (`truncInt`); the 21-entry
terrain array is a function `Fin 21 → ℚ`; C `int` counters are `ℤ`.
-/

/-- Game configuration (`GameConfig` in `src/main.c`). -/
structure GameConfig where
  gravity : ℚ
  engine_force : ℚ
  initial_fuel : ℤ
  display_delta_v : Bool

/-- Landing radar data (`LandingRadar` in `src/main.c`). -/
structure LandingRadar where
  active : Bool
  turns_remaining : ℤ
  terrain_height : Fin 21 → ℚ
  safe_landing_x : ℚ
  safe_landing_score : ℚ

/-- Full game state (`GameState` in `src/main.c`).  `A` is the horizontal
position, `B` the altitude, `C` the fuel count, as in the source. -/
structure GameState where
  A : ℚ
  B : ℚ
  vel_h : ℚ
  vel_v : ℚ
  prev_vel_h : ℚ
  prev_vel_v : ℚ
  C : ℤ
  engines_on : Bool
  time_step : ℚ
  radar : LandingRadar

/-- Truncation toward zero of a rational: the effect of the C cast
`(int)x` on an exactly-represented value. -/
def truncInt (q : ℚ) : ℤ := q.num.tdiv (q.den : ℤ)

/-- Clamp an integer index into `0..20`, as the two `if` statements in
`check_landing` do (`if (index < 0) index = 0; if (index > 20) index = 20;`). -/
def idx21 (i : ℤ) : Fin 21 :=
  if h0 : i < 0 then ⟨0, by omega⟩
  else if h20 : 20 < i then ⟨20, by omega⟩
  else ⟨i.toNat, by omega⟩

/-- `calculate_landing_safety` from `src/main.c` (lines 224-235): the
safety score of world coordinate `x_pos` over terrain `t`.  The C function
reads only `state->radar.terrain_height`, passed here directly. -/
def calculate_landing_safety (t : Fin 21 → ℚ) (x_pos : ℚ) : ℚ :=
  let index := truncInt ((x_pos + 100) / 10)
  if index < 0 ∨ 21 ≤ index then 0
  else
    let safety : ℚ := 100 - |t (idx21 index)| * 10
    let safety :=
      if 0 < index ∧ index < 20 then
        safety -
          (|t (idx21 index) - t (idx21 (index - 1))| +
            |t (idx21 (index + 1)) - t (idx21 index)|) * 5
      else safety
    max 0 safety

/-- The `terrain_penalty` local of `check_landing` (lines 386-392):
`0.2` times the absolute terrain height at the truncated-and-clamped index
of the horizontal position, when that position is within `[-100, 100]`. -/
def terrain_penalty (s : GameState) : ℚ :=
  if -100 ≤ s.A ∧ s.A ≤ 100 then
    |s.radar.terrain_height (idx21 (truncInt ((s.A + 100) / 10)))| * (1/5)
  else 0

/-- `SAFE_VERTICAL_SPEED` constant of `check_landing`. -/
def SAFE_VERTICAL_SPEED : ℚ := 2

/-- `SAFE_HORIZONTAL_SPEED` constant of `check_landing`. -/
def SAFE_HORIZONTAL_SPEED : ℚ := 3/2

/-- `check_landing` from `src/main.c` (lines 381-402): `1` for success,
`-1` for crash, `0` while still flying. -/
def check_landing (s : GameState) : ℤ :=
  if s.B ≤ 0 then
    if |s.vel_v| < SAFE_VERTICAL_SPEED - terrain_penalty s ∧
        |s.vel_h| < SAFE_HORIZONTAL_SPEED - terrain_penalty s then 1
    else -1
  else 0

/-- One physics move command: `'Y'` (left burn), `'Z'` (right burn),
`'X'` (drift) in the source. -/
inductive Move where
  | Y : Move
  | Z : Move
  | X : Move
deriving DecidableEq

/-- `update_physics` from `src/main.c` (lines 358-379). -/
def update_physics (cfg : GameConfig) (s : GameState) (m : Move) : GameState :=
  let dt := s.time_step
  let vel_v := s.vel_v - cfg.gravity * dt
  let vv_vh : ℚ × ℚ :=
    if s.engines_on then
      match m with
      | Move.Y => (vel_v + cfg.engine_force * dt, s.vel_h + cfg.engine_force * dt * (3/10))
      | Move.Z => (vel_v + cfg.engine_force * dt, s.vel_h - cfg.engine_force * dt * (3/10))
      | Move.X => (vel_v, s.vel_h)
    else (vel_v, s.vel_h)
  let B := s.B + vv_vh.1 * dt
  { s with
    prev_vel_h := s.vel_h
    prev_vel_v := s.vel_v
    vel_v := vv_vh.1
    vel_h := vv_vh.2
    A := s.A + vv_vh.2 * dt
    B := if B < 0 then 0 else B }

/-- `activate_landing_radar` from `src/main.c` (lines 237-242): sets the
radar active with 3 valid turns (display only otherwise). -/
def activate_landing_radar (s : GameState) : GameState :=
  { s with radar := { s.radar with active := true, turns_remaining := 3 } }

/-- The `'R'` command case of `main` (lines 114-124): with fuel available,
activate the radar and consume one fuel unit; otherwise refuse. -/
def radar_command (s : GameState) : GameState :=
  if 0 < s.C then
    let s1 := activate_landing_radar s
    { s1 with C := s1.C - 1 }
  else s

/-- The radar-decay block of `handle_game_turn` (lines 162-168): while
the radar is active with turns remaining, decrement the window and drop
the radar once it reaches zero. -/
def radar_decay (s : GameState) : GameState :=
  if s.radar.active = true ∧ 0 < s.radar.turns_remaining then
    let t := s.radar.turns_remaining - 1
    { s with radar :=
        { s.radar with
          turns_remaining := t
          active := if t ≤ 0 then false else s.radar.active } }
  else s

/-- `handle_game_turn` from `src/main.c` (lines 142-185), the state
transformation part: force a drift with engines off when fuel is
exhausted; reject a burn when engines are off (early return, state
untouched); otherwise run physics, charge fuel unless drifting
(`if (command != 'X') state->C--;`), and decay the radar window. -/
def handle_game_turn (cfg : GameConfig) (s : GameState) (m : Move) : GameState :=
  let s0 := if s.C ≤ 0 then { s with engines_on := false } else s
  let m0 := if s.C ≤ 0 then Move.X else m
  if (m0 = Move.Y ∨ m0 = Move.Z) ∧ s0.engines_on = false then s
  else
    let s1 := update_physics cfg s0 m0
    let s2 := if m0 = Move.X then s1 else { s1 with C := s1.C - 1 }
    radar_decay s2

/-- A move command passes the early-return guard of `handle_game_turn`
and resolves a full turn: with fuel exhausted the command is forced to a
drift (always resolving), and with fuel left a burn resolves only when
the engines are on. -/
def turn_resolves (s : GameState) (m : Move) : Prop :=
  ¬(0 < s.C ∧ (m = Move.Y ∨ m = Move.Z) ∧ s.engines_on = false)

instance (s : GameState) (m : Move) : Decidable (turn_resolves s m) := by
  unfold turn_resolves; infer_instance

/-- The interior sample indices `1..19` scanned by the recommendation
loop of `generate_terrain_data` (`for (int i = 1; i < 20; i++)`). -/
def interior_indices : List ℤ :=
  [1, 2, 3, 4, 5, 6, 7, 8, 9, 10, 11, 12, 13, 14, 15, 16, 17, 18, 19]

/-- One step of the best-landing-zone scan of `generate_terrain_data`
(lines 212-219): replace the running `(best_x, best_safety)` pair when
the candidate safety is strictly greater. -/
def best_step (t : Fin 21 → ℚ) (b : ℚ × ℚ) (i : ℤ) : ℚ × ℚ :=
  let x_pos : ℚ := -100 + (i : ℚ) * 10
  let safety := calculate_landing_safety t x_pos
  if b.2 < safety then (x_pos, safety) else b

/-- The recommendation scan of `generate_terrain_data`: fold `best_step`
over the interior indices starting from `best_safety = -1, best_x = 0`. -/
def best_scan (t : Fin 21 → ℚ) : ℚ × ℚ :=
  interior_indices.foldl (best_step t) (0, -1)

/-- `generate_terrain_data` from `src/main.c` (lines 202-222), with the
random height draw abstracted into the parameter `h` (the C code fills
`terrain_height[i]` from sinusoids plus a random hazard; every possible
draw is some `h`): store the 21 heights, then store the scanned
recommendation. -/
def generate_terrain_data (h : Fin 21 → ℚ) (r : LandingRadar) : LandingRadar :=
  let r1 := { r with terrain_height := h }
  let best := best_scan h
  { r1 with safe_landing_x := best.1, safe_landing_score := best.2 }

/-- `init_game` from `src/main.c` (lines 187-200), with the random draws
abstracted into parameters: position `a`, altitude `b`, velocities
`vh, vv`, terrain heights `h`. -/
def init_game (cfg : GameConfig) (h : Fin 21 → ℚ) (a b vh vv : ℚ) : GameState :=
  { A := a
    B := b
    vel_h := vh
    vel_v := vv
    prev_vel_h := vh
    prev_vel_v := vv
    C := cfg.initial_fuel
    engines_on := false
    time_step := 1
    radar := generate_terrain_data h
      { active := false
        turns_remaining := 0
        terrain_height := h
        safe_landing_x := 0
        safe_landing_score := 0 } }

/-- The in-flight commands of the main loop that touch the game state:
`'W'` engines on, `'S'` engines off, `'R'` radar, and the move commands
`'Y'`/`'Z'`/`'X'` handled by `handle_game_turn`. -/
inductive Cmd where
  | W : Cmd
  | S : Cmd
  | R : Cmd
  | move : Move → Cmd

/-- One iteration of the `main` command loop (lines 102-132) acting on
the game state. -/
def step (cfg : GameConfig) (s : GameState) : Cmd → GameState
  | Cmd.W => { s with engines_on := true }
  | Cmd.S => { s with engines_on := false }
  | Cmd.R => radar_command s
  | Cmd.move m => handle_game_turn cfg s m

/-- Run a list of in-flight commands from a state. -/
def run (cfg : GameConfig) (s : GameState) (cs : List Cmd) : GameState :=
  cs.foldl (step cfg) s

/-- The velocity-direction indicator printed by `display_status`
(line 335): `"->"` for positive horizontal velocity, `"<-"` otherwise;
positive horizontal velocity moves the lander toward larger `A`, drawn to
the right by the visualizer. -/
def vel_h_dir (s : GameState) : String :=
  if 0 < s.vel_h then "->" else "<-"

/-- Flat test terrain: every sample height 0. -/
def testTerrain : Fin 21 → ℚ := fun _ => 0

/-- A concrete in-flight state used by witnesses: altitude 100, zero
velocities, 5 fuel, engines off, radar inactive, flat terrain. -/
def baseState : GameState :=
  { A := 0, B := 100, vel_h := 0, vel_v := 0, prev_vel_h := 0, prev_vel_v := 0,
    C := 5, engines_on := false, time_step := 1,
    radar := { active := false, turns_remaining := 0, terrain_height := testTerrain,
               safe_landing_x := 0, safe_landing_score := 0 } }

/-- The base state already on the ground (altitude 0). -/
def landedState : GameState := { baseState with B := 0 }

/-- The configuration of the burn-left scenario: moon gravity `1.6`,
engine force `3.0`. -/
def cfg3 : GameConfig :=
  { gravity := 8/5, engine_force := 3, initial_fuel := 50, display_delta_v := false }

/-- The burn-left scenario state: fuel 5, altitude 100, zero velocity,
engines on. -/
def scenarioState : GameState := { baseState with engines_on := true }

/-- The base state with the radar active and 1 valid turn remaining. -/
def radarActive1 : GameState :=
  { baseState with radar := { baseState.radar with active := true, turns_remaining := 1 } }

/-- The base state with the radar active and 3 valid turns remaining. -/
def radarActive3 : GameState :=
  { baseState with radar := { baseState.radar with active := true, turns_remaining := 3 } }

/-- The base state with the fuel exhausted. -/
def emptyFuelState : GameState := { baseState with C := 0 }

/-- Modelled from the spec (§4.1): scan the interior candidates in order,
evaluate the Safety Scorer at each world coordinate `-100 + 10 i`, and
retain the maximum-score coordinate, the first-found candidate winning
ties under a strict greater-than comparison — expressed as starting from
the first candidate and replacing only on strictly greater safety. -/
def recommendSpec (t : Fin 21 → ℚ) : ℚ × ℚ :=
  [(2 : ℤ), 3, 4, 5, 6, 7, 8, 9, 10, 11, 12, 13, 14, 15, 16, 17, 18, 19].foldl
    (best_step t)
    (-100 + ((1 : ℤ) : ℚ) * 10, calculate_landing_safety t (-100 + ((1 : ℤ) : ℚ) * 10))

/-- The radar state invariant: an active radar always has turns left. -/
def RadarInv (s : GameState) : Prop :=
  s.radar.active = true → 0 < s.radar.turns_remaining

/-- The safety score is never negative (it is clamped by `fmax(0, ...)`,
and the out-of-range branch returns 0). -/
lemma calculate_landing_safety_nonneg (t : Fin 21 → ℚ) (x : ℚ) :
    0 ≤ calculate_landing_safety t x := by
  unfold calculate_landing_safety
  by_cases h : truncInt ((x + 100) / 10) < 0 ∨ 21 ≤ truncInt ((x + 100) / 10)
  · rw [if_pos h]
  · rw [if_neg h]
    exact le_max_left 0 _

/-- Projections of `radar_decay`: every non-radar field is untouched. -/
lemma radar_decay_vel_h (s : GameState) : (radar_decay s).vel_h = s.vel_h := by
  unfold radar_decay; split_ifs <;> rfl

lemma radar_decay_vel_v (s : GameState) : (radar_decay s).vel_v = s.vel_v := by
  unfold radar_decay; split_ifs <;> rfl

lemma radar_decay_C (s : GameState) : (radar_decay s).C = s.C := by
  unfold radar_decay; split_ifs <;> rfl

lemma radar_decay_engines (s : GameState) : (radar_decay s).engines_on = s.engines_on := by
  unfold radar_decay; split_ifs <;> rfl

/-- The radar part of `radar_decay` depends only on the radar part. -/
lemma radar_decay_radar_proj (s1 s2 : GameState) (h : s1.radar = s2.radar) :
    (radar_decay s1).radar = (radar_decay s2).radar := by
  unfold radar_decay
  rw [h]
  split_ifs with hd
  · rfl
  · exact h

/-- What `radar_decay` does to the radar record. -/
lemma radar_decay_radar (s : GameState) :
    (radar_decay s).radar =
      (if s.radar.active = true ∧ 0 < s.radar.turns_remaining then
        { s.radar with
          turns_remaining := s.radar.turns_remaining - 1
          active := if s.radar.turns_remaining - 1 ≤ 0 then false else s.radar.active }
      else s.radar) := by
  unfold radar_decay
  by_cases h : s.radar.active = true ∧ 0 < s.radar.turns_remaining
  · rw [if_pos h, if_pos h]
  · rw [if_neg h, if_neg h]

/-- `update_physics` never changes the fuel count. -/
lemma update_physics_C (cfg : GameConfig) (s : GameState) (m : Move) :
    (update_physics cfg s m).C = s.C := rfl

/-- `update_physics` never changes the radar. -/
lemma update_physics_radar (cfg : GameConfig) (s : GameState) (m : Move) :
    (update_physics cfg s m).radar = s.radar := rfl

/-- `update_physics` never changes the engines flag. -/
lemma update_physics_engines (cfg : GameConfig) (s : GameState) (m : Move) :
    (update_physics cfg s m).engines_on = s.engines_on := rfl

/-- A burn with engines off and fuel left hits the early return of
`handle_game_turn`: the state is returned untouched. -/
lemma handle_game_turn_rejected (cfg : GameConfig) (s : GameState) (m : Move)
    (hr : ¬turn_resolves s m) : handle_game_turn cfg s m = s := by
  unfold turn_resolves at hr
  push_neg at hr
  obtain ⟨hc, hm, he⟩ := hr
  have hnot : ¬s.C ≤ 0 := by omega
  rcases hm with rfl | rfl <;> simp [handle_game_turn, hnot, he]

/-- With fuel exhausted, a turn is a forced engines-off drift. -/
lemma handle_game_turn_noFuel (cfg : GameConfig) (s : GameState) (m : Move)
    (hc : s.C ≤ 0) :
    handle_game_turn cfg s m =
      radar_decay (update_physics cfg { s with engines_on := false } Move.X) := by
  simp [handle_game_turn, hc]

/-- A drift with fuel left: physics then radar decay, no fuel charge. -/
lemma handle_game_turn_drift (cfg : GameConfig) (s : GameState) (hc : 0 < s.C) :
    handle_game_turn cfg s Move.X = radar_decay (update_physics cfg s Move.X) := by
  simp [handle_game_turn, show ¬s.C ≤ 0 by omega]

/-- A burn with fuel left and engines on: physics, one fuel unit charged,
then radar decay. -/
lemma handle_game_turn_burn (cfg : GameConfig) (s : GameState) (m : Move)
    (hc : 0 < s.C) (he : s.engines_on = true) (hmx : m ≠ Move.X) :
    handle_game_turn cfg s m =
      radar_decay { update_physics cfg s m with C := (update_physics cfg s m).C - 1 } := by
  cases m with
  | X => exact absurd rfl hmx
  | Y => simp [handle_game_turn, show ¬s.C ≤ 0 by omega, he]
  | Z => simp [handle_game_turn, show ¬s.C ≤ 0 by omega, he]

/-- The radar after a resolved turn is exactly the decayed radar. -/
lemma handle_game_turn_radar (cfg : GameConfig) (s : GameState) (m : Move)
    (hr : turn_resolves s m) :
    (handle_game_turn cfg s m).radar = (radar_decay s).radar := by
  by_cases hc : s.C ≤ 0
  · rw [handle_game_turn_noFuel cfg s m hc]
    exact radar_decay_radar_proj _ _ (by rw [update_physics_radar])
  · cases m with
    | X =>
      rw [handle_game_turn_drift cfg s (by omega)]
      exact radar_decay_radar_proj _ _ (by rw [update_physics_radar])
    | Y =>
      have he : s.engines_on = true := by
        unfold turn_resolves at hr
        push_neg at hr
        have := hr (by omega) (Or.inl rfl)
        revert this
        cases s.engines_on <;> simp
      rw [handle_game_turn_burn cfg s Move.Y (by omega) he (by decide)]
      exact radar_decay_radar_proj _ _ (by rw [show ({ update_physics cfg s Move.Y with C := (update_physics cfg s Move.Y).C - 1 } : GameState).radar = (update_physics cfg s Move.Y).radar from rfl, update_physics_radar])
    | Z =>
      have he : s.engines_on = true := by
        unfold turn_resolves at hr
        push_neg at hr
        have := hr (by omega) (Or.inr rfl)
        revert this
        cases s.engines_on <;> simp
      rw [handle_game_turn_burn cfg s Move.Z (by omega) he (by decide)]
      exact radar_decay_radar_proj _ _ (by rw [show ({ update_physics cfg s Move.Z with C := (update_physics cfg s Move.Z).C - 1 } : GameState).radar = (update_physics cfg s Move.Z).radar from rfl, update_physics_radar])

/-- The fuel after `handle_game_turn`: unchanged, or decremented from a
strictly positive count. -/
lemma handle_game_turn_C (cfg : GameConfig) (s : GameState) (m : Move) :
    (handle_game_turn cfg s m).C = s.C ∨
      (0 < s.C ∧ (handle_game_turn cfg s m).C = s.C - 1) := by
  by_cases hc : s.C ≤ 0
  · left
    rw [handle_game_turn_noFuel cfg s m hc, radar_decay_C, update_physics_C]
  · by_cases hmx : m = Move.X
    · subst hmx
      left
      rw [handle_game_turn_drift cfg s (by omega), radar_decay_C, update_physics_C]
    · by_cases he : s.engines_on = true
      · right
        refine ⟨by omega, ?_⟩
        rw [handle_game_turn_burn cfg s m (by omega) he hmx, radar_decay_C]
        rw [show ({ update_physics cfg s m with C := (update_physics cfg s m).C - 1 } : GameState).C = (update_physics cfg s m).C - 1 from rfl, update_physics_C]
      · left
        have he2 : s.engines_on = false := by revert he; cases s.engines_on <;> simp
        have hm : m = Move.Y ∨ m = Move.Z := by cases m <;> simp_all
        rw [handle_game_turn_rejected cfg s m (by unfold turn_resolves; push_neg; exact ⟨by omega, hm, he2⟩)]

/-- With the fuel exhausted, a turn is forced into a drift: the engines
are switched off and no fuel is charged. -/
lemma handle_game_turn_forced_drift (cfg : GameConfig) (s : GameState) (m : Move)
    (hc : s.C ≤ 0) :
    (handle_game_turn cfg s m).C = s.C ∧ (handle_game_turn cfg s m).engines_on = false := by
  rw [handle_game_turn_noFuel cfg s m hc]
  constructor
  · rw [radar_decay_C, update_physics_C]
  · rw [radar_decay_engines, update_physics_engines]

/-- C1: for every flight state with altitude at most 0, `check_landing`
returns success (1) exactly when both speed bounds hold strictly —
`|vel_v| < 2 - p` and `|vel_h| < 3/2 - p`, where the penalty `p` is
`0.2` times the absolute terrain height at the truncated-and-clamped
index of the horizontal position when that position is in `[-100, 100]`
and `0` otherwise — returns crash (-1) on any violation, and returns
still-flying (0) whenever altitude is positive. -/
theorem check_landing_spec (s : GameState) :
    terrain_penalty s =
      (if -100 ≤ s.A ∧ s.A ≤ 100 then
        (1/5) * |s.radar.terrain_height (idx21 (truncInt ((s.A + 100) / 10)))|
      else 0)
    ∧ (s.B ≤ 0 →
        ((check_landing s = 1 ↔
            |s.vel_v| < 2 - terrain_penalty s ∧ |s.vel_h| < 3/2 - terrain_penalty s)
          ∧ (check_landing s = -1 ↔
            ¬(|s.vel_v| < 2 - terrain_penalty s ∧ |s.vel_h| < 3/2 - terrain_penalty s))))
    ∧ (0 < s.B → check_landing s = 0) := by
  refine ⟨?_, fun hb => ⟨?_, ?_⟩, fun hb => ?_⟩
  · unfold terrain_penalty
    split_ifs <;> ring
  · unfold check_landing SAFE_VERTICAL_SPEED SAFE_HORIZONTAL_SPEED
    rw [if_pos hb]
    split_ifs with hc
    · exact iff_of_true rfl hc
    · exact iff_of_false (by norm_num) hc
  · unfold check_landing SAFE_VERTICAL_SPEED SAFE_HORIZONTAL_SPEED
    rw [if_pos hb]
    split_ifs with hc
    · exact iff_of_false (by norm_num) (not_not_intro hc)
    · exact iff_of_true rfl hc
  · unfold check_landing
    rw [if_neg (by linarith)]

/-- Witness for C1: the concrete grounded state with zero velocities over
flat terrain classifies as a successful landing. -/
theorem check_landing_spec_witness : check_landing landedState = 1 :=
  ((check_landing_spec landedState).2.1 (by norm_num [landedState, baseState])).1.mpr
    (by norm_num [landedState, baseState, terrain_penalty, testTerrain])

/-- C2: the safety score is always within `[0, 100]`, and any coordinate
whose truncated index falls outside the valid terrain range `0..20`
scores exactly 0. -/
theorem calculate_landing_safety_spec (t : Fin 21 → ℚ) (x : ℚ) :
    0 ≤ calculate_landing_safety t x ∧ calculate_landing_safety t x ≤ 100 ∧
      ((truncInt ((x + 100) / 10) < 0 ∨ 21 ≤ truncInt ((x + 100) / 10)) →
        calculate_landing_safety t x = 0) := by
  unfold calculate_landing_safety
  by_cases h : truncInt ((x + 100) / 10) < 0 ∨ 21 ≤ truncInt ((x + 100) / 10)
  · rw [if_pos h]
    exact ⟨le_refl 0, by norm_num, fun _ => rfl⟩
  · rw [if_neg h]
    refine ⟨le_max_left 0 _, ?_, fun hcon => absurd hcon h⟩
    apply max_le (by norm_num)
    split_ifs with hi
    · have h1 : 0 ≤ |t (idx21 (truncInt ((x + 100) / 10)))| * 10 := by positivity
      have h2 : 0 ≤ (|t (idx21 (truncInt ((x + 100) / 10))) -
          t (idx21 (truncInt ((x + 100) / 10) - 1))| +
          |t (idx21 (truncInt ((x + 100) / 10) + 1)) -
            t (idx21 (truncInt ((x + 100) / 10)))|) * 5 := by positivity
      linarith
    · have h1 : 0 ≤ |t (idx21 (truncInt ((x + 100) / 10)))| * 10 := by positivity
      linarith

/-- Witness for C2: `x = 300` maps to truncated index 40, outside
`0..20`, and indeed scores 0. -/
theorem calculate_landing_safety_spec_witness :
    calculate_landing_safety testTerrain 300 = 0 :=
  (calculate_landing_safety_spec testTerrain 300).2.2 (Or.inr (by norm_num [truncInt]))

/-- The burn-left scenario turn, computed concretely: gravity `1.6`,
engine force `3.0`, fuel 5, zero velocity, engines on, command `'Y'`. -/
lemma scenario_turn_vel_v : (handle_game_turn cfg3 scenarioState Move.Y).vel_v = 7/5 := by
  simp [handle_game_turn, update_physics, cfg3, scenarioState, baseState, testTerrain,
    radar_decay_vel_v]
  norm_num

lemma scenario_turn_vel_h : (handle_game_turn cfg3 scenarioState Move.Y).vel_h = 9/10 := by
  simp [handle_game_turn, update_physics, cfg3, scenarioState, baseState, testTerrain,
    radar_decay_vel_h]
  norm_num

lemma scenario_turn_fuel : (handle_game_turn cfg3 scenarioState Move.Y).C = 4 := by
  simp [handle_game_turn, update_physics, cfg3, scenarioState, baseState, testTerrain,
    radar_decay_C]

/-- C3 counterexample: after one burn-left turn of the stated scenario,
the horizontal velocity is `+0.9` — positive, i.e. toward larger `A`,
shown as `"->"` by the status display — not in the leftward (negative)
direction as the claim states. -/
theorem burn_left_direction_counterexample :
    (handle_game_turn cfg3 scenarioState Move.Y).vel_h = 9/10 ∧
      ¬(handle_game_turn cfg3 scenarioState Move.Y).vel_h < 0 ∧
      vel_h_dir (handle_game_turn cfg3 scenarioState Move.Y) = "->" := by
  refine ⟨scenario_turn_vel_h, ?_, ?_⟩
  · rw [scenario_turn_vel_h]; norm_num
  · unfold vel_h_dir
    rw [scenario_turn_vel_h, if_pos (by norm_num)]

/-- C3 amended: one burn-left turn of the scenario yields vertical
velocity `-1.6 + 3.0 = 1.4` (upward), horizontal velocity of magnitude
`0.9` in the positive (rightward) direction, and fuel decremented from 5
to 4. -/
theorem burn_left_turn_amended :
    (handle_game_turn cfg3 scenarioState Move.Y).vel_v = 7/5 ∧
    (handle_game_turn cfg3 scenarioState Move.Y).vel_h = 9/10 ∧
    (handle_game_turn cfg3 scenarioState Move.Y).C = 4 :=
  ⟨scenario_turn_vel_v, scenario_turn_vel_h, scenario_turn_fuel⟩

/-- C5: radar activation with zero fuel is refused, leaving the whole
state (in particular an inactive radar) unchanged; with fuel available it
consumes exactly one fuel unit, sets the radar active, and sets the
window to 3 turns. -/
theorem radar_activation_spec (s : GameState) :
    (s.C = 0 →
      radar_command s = s ∧
        (s.radar.active = false → (radar_command s).radar.active = false))
    ∧ (1 ≤ s.C →
        (radar_command s).C = s.C - 1 ∧
        (radar_command s).radar.active = true ∧
        (radar_command s).radar.turns_remaining = 3) := by
  constructor
  · intro h0
    have he : radar_command s = s := by
      unfold radar_command
      rw [if_neg (by omega)]
    exact ⟨he, fun hi => by rw [he]; exact hi⟩
  · intro h1
    unfold radar_command activate_landing_radar
    rw [if_pos (by omega : 0 < s.C)]
    exact ⟨rfl, rfl, rfl⟩

/-- Witness for C5: activating the radar from the 5-fuel base state. -/
theorem radar_activation_spec_witness :
    (radar_command baseState).C = baseState.C - 1 ∧
    (radar_command baseState).radar.active = true ∧
    (radar_command baseState).radar.turns_remaining = 3 :=
  (radar_activation_spec baseState).2 (by norm_num [baseState])

/-- C7: a burn command with engines off and fuel left is rejected without
consuming the turn — the flight state is returned entirely unchanged. -/
theorem burn_rejected_spec (cfg : GameConfig) (s : GameState) (m : Move)
    (hm : m = Move.Y ∨ m = Move.Z) (he : s.engines_on = false) (hc : 0 < s.C) :
    handle_game_turn cfg s m = s :=
  handle_game_turn_rejected cfg s m
    (by unfold turn_resolves; push_neg; exact ⟨hc, hm, he⟩)

/-- Witness for C7: a left burn from the engines-off base state leaves
the state untouched. -/
theorem burn_rejected_spec_witness : handle_game_turn cfg3 baseState Move.Y = baseState :=
  burn_rejected_spec cfg3 baseState Move.Y (Or.inl rfl) rfl (by norm_num [baseState])

/-- C8: a drift turn with engines off leaves horizontal velocity and fuel
unchanged at any altitude; the vertical velocity changes only by
the pull of gravity over the fixed turn duration. -/
theorem drift_engines_off_spec (cfg : GameConfig) (s : GameState)
    (he : s.engines_on = false) :
    (handle_game_turn cfg s Move.X).vel_h = s.vel_h ∧
    (handle_game_turn cfg s Move.X).C = s.C ∧
    (handle_game_turn cfg s Move.X).vel_v = s.vel_v - cfg.gravity * s.time_step := by
  by_cases hc : s.C ≤ 0
  · rw [handle_game_turn_noFuel cfg s Move.X hc]
    refine ⟨?_, ?_, ?_⟩
    · rw [radar_decay_vel_h]
      simp [update_physics]
    · rw [radar_decay_C, update_physics_C]
    · rw [radar_decay_vel_v]
      simp [update_physics]
  · rw [handle_game_turn_drift cfg s (by omega)]
    refine ⟨?_, ?_, ?_⟩
    · rw [radar_decay_vel_h]
      simp [update_physics, he]
    · rw [radar_decay_C, update_physics_C]
    · rw [radar_decay_vel_v]
      simp [update_physics, he]

/-- Witness for C8: a drift from the base state. -/
theorem drift_engines_off_spec_witness :
    (handle_game_turn cfg3 baseState Move.X).vel_h = baseState.vel_h ∧
    (handle_game_turn cfg3 baseState Move.X).C = baseState.C ∧
    (handle_game_turn cfg3 baseState Move.X).vel_v =
      baseState.vel_v - cfg3.gravity * baseState.time_step :=
  drift_engines_off_spec cfg3 baseState rfl

/-- C10: re-activating an already-active radar with fuel available
consumes another fuel unit and rewinds the window to 3 turns, whatever
was left of it. -/
theorem radar_reactivation_spec (s : GameState) (ha : s.radar.active = true)
    (hc : 0 < s.C) :
    (radar_command s).radar.active = true ∧
    (radar_command s).radar.turns_remaining = 3 ∧
    (radar_command s).C = s.C - 1 := by
  unfold radar_command activate_landing_radar
  rw [if_pos hc]
  exact ⟨rfl, rfl, rfl⟩

/-- Witness for C10: re-activating from an active radar with one turn
left. -/
theorem radar_reactivation_spec_witness :
    (radar_command radarActive1).radar.active = true ∧
    (radar_command radarActive1).radar.turns_remaining = 3 ∧
    (radar_command radarActive1).C = radarActive1.C - 1 :=
  radar_reactivation_spec radarActive1 rfl (by norm_num [radarActive1, baseState])

/-- The running best-safety value of the scan never decreases. -/
lemma best_foldl_snd_le (t : Fin 21 → ℚ) (l : List ℤ) (b : ℚ × ℚ) :
    b.2 ≤ (l.foldl (best_step t) b).2 := by
  induction l generalizing b with
  | nil => exact le_refl _
  | cons i l ih =>
    simp only [List.foldl_cons]
    refine le_trans ?_ (ih (best_step t b i))
    simp only [best_step]
    split_ifs with hlt
    · exact le_of_lt hlt
    · exact le_refl _

/-- The final best safety of the scan dominates the safety of every scanned
candidate. -/
lemma best_foldl_mem_le (t : Fin 21 → ℚ) (l : List ℤ) (b : ℚ × ℚ) :
    ∀ i ∈ l, calculate_landing_safety t (-100 + (i : ℚ) * 10) ≤ (l.foldl (best_step t) b).2 := by
  induction l generalizing b with
  | nil => intro i hi; cases hi
  | cons j l ih =>
    intro i hi
    simp only [List.foldl_cons]
    rcases List.mem_cons.mp hi with rfl | hmem
    · refine le_trans ?_ (best_foldl_snd_le t l (best_step t b i))
      simp only [best_step]
      split_ifs with hlt
      · exact le_refl _
      · exact le_of_not_lt hlt
    · exact ih (best_step t b j) i hmem

/-- The source scan (init `(0, -1)`, strict `>` replacement) computes the
spec-side first-wins maximum scan: the first candidate always displaces
the `-1` sentinel because safety scores are non-negative. -/
lemma best_scan_eq_recommendSpec (t : Fin 21 → ℚ) : best_scan t = recommendSpec t := by
  have h2 : best_step t (0, -1) 1 =
      (-100 + ((1 : ℤ) : ℚ) * 10,
        calculate_landing_safety t (-100 + ((1 : ℤ) : ℚ) * 10)) := by
    have hn := calculate_landing_safety_nonneg t (-100 + ((1 : ℤ) : ℚ) * 10)
    have hlt : (-1 : ℚ) < calculate_landing_safety t (-100 + ((1 : ℤ) : ℚ) * 10) :=
      lt_of_lt_of_le (by norm_num) hn
    simp only [best_step]
    rw [if_pos hlt]
  have h1 : best_scan t =
      List.foldl (best_step t)
        (best_step t (0, -1) 1)
        [(2 : ℤ), 3, 4, 5, 6, 7, 8, 9, 10, 11, 12, 13, 14, 15, 16, 17, 18, 19] := by
    unfold best_scan interior_indices
    rw [List.foldl_cons]
  rw [h1, h2]
  unfold recommendSpec
  rfl

/-- C4: for every terrain draw, the stored recommendation reproduces
exactly the spec-side scan of the interior indices 1..19 of the stored
21-sample terrain (maximum safety, first-found wins under strict `>`),
and the stored score dominates the safety of every interior candidate. -/
theorem generate_terrain_data_spec (h : Fin 21 → ℚ) (r : LandingRadar) :
    (generate_terrain_data h r).terrain_height = h ∧
    ((generate_terrain_data h r).safe_landing_x,
      (generate_terrain_data h r).safe_landing_score) =
        recommendSpec (generate_terrain_data h r).terrain_height ∧
    (∀ i ∈ interior_indices,
      calculate_landing_safety (generate_terrain_data h r).terrain_height
          (-100 + (i : ℚ) * 10)
        ≤ (generate_terrain_data h r).safe_landing_score) := by
  have hgen : generate_terrain_data h r =
      { r with
        terrain_height := h
        safe_landing_x := (best_scan h).1
        safe_landing_score := (best_scan h).2 } := rfl
  rw [hgen]
  dsimp only
  refine ⟨rfl, ?_, ?_⟩
  · rw [← best_scan_eq_recommendSpec]
  · intro i hi
    exact best_foldl_mem_le h interior_indices (0, -1) i hi

/-- Witness for C4: on flat test terrain, candidate index 1 is dominated
by the stored recommendation score. -/
theorem generate_terrain_data_spec_witness :
    calculate_landing_safety (generate_terrain_data testTerrain baseState.radar).terrain_height
        (-100 + ((1 : ℤ) : ℚ) * 10)
      ≤ (generate_terrain_data testTerrain baseState.radar).safe_landing_score :=
  (generate_terrain_data_spec testTerrain baseState.radar).2.2 1 (by decide)

/-- After a resolved turn with the radar active and turns left, the
window is decremented and the radar stays active exactly while turns
remain. -/
lemma radar_after_resolved (cfg : GameConfig) (s : GameState) (m : Move)
    (hr : turn_resolves s m) (ha : s.radar.active = true)
    (ht : 0 < s.radar.turns_remaining) :
    (handle_game_turn cfg s m).radar.active =
      (if s.radar.turns_remaining - 1 ≤ 0 then false else true) ∧
    (handle_game_turn cfg s m).radar.turns_remaining = s.radar.turns_remaining - 1 := by
  rw [handle_game_turn_radar cfg s m hr, radar_decay_radar, if_pos ⟨ha, ht⟩]
  constructor
  · show (if s.radar.turns_remaining - 1 ≤ 0 then false else s.radar.active) = _
    rw [ha]
  · rfl

/-- A single command preserves the radar invariant. -/
lemma radarInv_step (cfg : GameConfig) (s : GameState) (c : Cmd)
    (h : RadarInv s) : RadarInv (step cfg s c) := by
  cases c with
  | W => exact h
  | S => exact h
  | R =>
    unfold RadarInv step radar_command activate_landing_radar
    by_cases hc : 0 < s.C
    · rw [if_pos hc]
      intro _
      norm_num
    · rw [if_neg hc]
      exact h
  | move m =>
    by_cases hr : turn_resolves s m
    · show (handle_game_turn cfg s m).radar.active = true →
        0 < (handle_game_turn cfg s m).radar.turns_remaining
      rw [handle_game_turn_radar cfg s m hr, radar_decay_radar]
      by_cases hd : s.radar.active = true ∧ 0 < s.radar.turns_remaining
      · rw [if_pos hd]
        intro hact
        by_cases ht : s.radar.turns_remaining - 1 ≤ 0
        · rw [if_pos ht] at hact
          exact absurd hact (by simp)
        · show 0 < s.radar.turns_remaining - 1
          omega
      · rw [if_neg hd]
        exact h
    · rw [show step cfg s (Cmd.move m) = handle_game_turn cfg s m from rfl,
        handle_game_turn_rejected cfg s m hr]
      exact h

/-- A whole command list preserves the radar invariant. -/
lemma radarInv_run (cfg : GameConfig) (cs : List Cmd) :
    ∀ s : GameState, RadarInv s → RadarInv (run cfg s cs) := by
  induction cs with
  | nil => intro s h; exact h
  | cons c cs ih =>
    intro s h
    show RadarInv (run cfg (step cfg s c) cs)
    exact ih _ (radarInv_step cfg s c h)

/-- C6: from an active radar with a 3-turn window, the radar survives the
first two resolved turns and auto-deactivates exactly on the third; and
starting from any state with the radar off, no command sequence reaches a
state whose radar is active with zero turns remaining. -/
theorem radar_window_spec (cfg : GameConfig) :
    (∀ (s : GameState) (m1 m2 m3 : Move),
      s.radar.active = true → s.radar.turns_remaining = 3 →
      turn_resolves s m1 →
      turn_resolves (handle_game_turn cfg s m1) m2 →
      turn_resolves (handle_game_turn cfg (handle_game_turn cfg s m1) m2) m3 →
      (handle_game_turn cfg s m1).radar.active = true ∧
      (handle_game_turn cfg (handle_game_turn cfg s m1) m2).radar.active = true ∧
      (handle_game_turn cfg (handle_game_turn cfg (handle_game_turn cfg s m1) m2)
          m3).radar.active = false)
    ∧ (∀ (s : GameState) (cs : List Cmd), s.radar.active = false →
        ¬((run cfg s cs).radar.active = true ∧
          (run cfg s cs).radar.turns_remaining = 0)) := by
  constructor
  · intro s m1 m2 m3 ha ht hr1 hr2 hr3
    have h1 := radar_after_resolved cfg s m1 hr1 ha (by omega)
    have h1a : (handle_game_turn cfg s m1).radar.active = true := by
      rw [h1.1, ht]; decide
    have h1t : (handle_game_turn cfg s m1).radar.turns_remaining = 2 := by
      rw [h1.2, ht]; decide
    have h2 := radar_after_resolved cfg _ m2 hr2 h1a (by omega)
    have h2a : (handle_game_turn cfg (handle_game_turn cfg s m1) m2).radar.active = true := by
      rw [h2.1, h1t]; decide
    have h2t : (handle_game_turn cfg (handle_game_turn cfg s m1) m2).radar.turns_remaining
        = 1 := by
      rw [h2.2, h1t]; decide
    have h3 := radar_after_resolved cfg _ m3 hr3 h2a (by omega)
    refine ⟨h1a, h2a, ?_⟩
    rw [h3.1, h2t]
    decide
  · intro s cs ha
    have hinv : RadarInv (run cfg s cs) := by
      apply radarInv_run
      intro hact
      rw [ha] at hact
      exact absurd hact (by decide)
    rintro ⟨hact, hturn⟩
    have := hinv hact
    omega

/-- Witness for C6: three drift turns from the 3-turn active radar state
deactivate the radar exactly at the third. -/
theorem radar_window_spec_witness :
    (handle_game_turn cfg3 radarActive3 Move.X).radar.active = true ∧
    (handle_game_turn cfg3 (handle_game_turn cfg3 radarActive3 Move.X) Move.X).radar.active
      = true ∧
    (handle_game_turn cfg3 (handle_game_turn cfg3 (handle_game_turn cfg3 radarActive3 Move.X)
        Move.X) Move.X).radar.active = false :=
  (radar_window_spec cfg3).1 radarActive3 Move.X Move.X Move.X rfl rfl
    (by unfold turn_resolves; simp) (by unfold turn_resolves; simp)
    (by unfold turn_resolves; simp)

/-- One command never makes the fuel count negative. -/
lemma step_C_nonneg (cfg : GameConfig) (s : GameState) (c : Cmd)
    (h : 0 ≤ s.C) : 0 ≤ (step cfg s c).C := by
  cases c with
  | W => exact h
  | S => exact h
  | R =>
    unfold step radar_command activate_landing_radar
    by_cases hc : 0 < s.C
    · rw [if_pos hc]
      show 0 ≤ s.C - 1
      omega
    · rw [if_neg hc]
      exact h
  | move m =>
    rcases handle_game_turn_C cfg s m with hC | ⟨hpos, hC⟩
    · show 0 ≤ (handle_game_turn cfg s m).C
      rw [hC]; exact h
    · show 0 ≤ (handle_game_turn cfg s m).C
      rw [hC]; omega

/-- A whole command list never makes the fuel count negative. -/
lemma run_C_nonneg (cfg : GameConfig) (cs : List Cmd) :
    ∀ s : GameState, 0 ≤ s.C → 0 ≤ (run cfg s cs).C := by
  induction cs with
  | nil => intro s h; exact h
  | cons c cs ih =>
    intro s h
    show 0 ≤ (run cfg (step cfg s c) cs).C
    exact ih _ (step_C_nonneg cfg s c h)

/-- C9: a turn decrements fuel only from a strictly positive count (a
turn with fuel exhausted is a forced engines-off drift that charges
nothing), radar activation decrements only from a strictly positive
count, and hence the fuel count stays non-negative along every processed
command sequence. -/
theorem fuel_nonneg_spec (cfg : GameConfig) :
    (∀ (s : GameState) (m : Move),
      (handle_game_turn cfg s m).C = s.C ∨
        (0 < s.C ∧ (handle_game_turn cfg s m).C = s.C - 1))
    ∧ (∀ (s : GameState) (m : Move), s.C ≤ 0 →
        (handle_game_turn cfg s m).C = s.C ∧ (handle_game_turn cfg s m).engines_on = false)
    ∧ (∀ s : GameState,
        (radar_command s).C = s.C ∨ (0 < s.C ∧ (radar_command s).C = s.C - 1))
    ∧ (∀ (s : GameState) (cs : List Cmd), 0 ≤ s.C → 0 ≤ (run cfg s cs).C) := by
  refine ⟨handle_game_turn_C cfg, fun s m hc => handle_game_turn_forced_drift cfg s m hc,
    ?_, fun s cs h => run_C_nonneg cfg cs s h⟩
  intro s
  unfold radar_command activate_landing_radar
  by_cases hc : 0 < s.C
  · right
    rw [if_pos hc]
    exact ⟨hc, rfl⟩
  · left
    rw [if_neg hc]

/-- Witness for C9: one drift from the 5-fuel base state keeps the fuel
count non-negative. -/
theorem fuel_nonneg_spec_witness : 0 ≤ (run cfg3 baseState [Cmd.move Move.X]).C :=
  (fuel_nonneg_spec cfg3).2.2.2 baseState [Cmd.move Move.X] (by norm_num [baseState])
